import Mathlib

/-!
Verification development for the selector-generator library.

The library generates CSS selector strings for elements of a document
tree.  Its data model is the "selector descriptor": a CSS fragment
together with a cost, an ancestor level and a type tag.  Candidate
descriptors are produced by six generators, a builder linearizes a
descriptor set into a selector string, and greedy optimizers reduce the
set while a live document query interface (`querySelectorAll`) reports
how many nodes a candidate string matches.

The repository contains the modular sources under `src/` (single-target
entry point, descriptor intersection by the full `(level, type,
selector)` triple) and a bundled artifact (multi-target entry point,
intersection by selector string).  Both variants are embedded below
where claims refer to them: the `src` functions carry their source
names directly, the bundled variants live in the `Dist` namespace.

External collaborators (the DOM query service, the scoped
`Element.querySelector` probe and `CSS.escape`) are modelled as explicit
function parameters, since the library treats them as opaque interfaces.
JavaScript arrays of freshly allocated descriptor objects are modelled
as lists of index-annotated descriptors: the index models object
identity (reference equality), which the optimizers use for `includes`
and `filter` membership tests.
-/

/-- The selector descriptor record shared by the whole system:
`cost` (lower is better), `level` (0 = the node itself, `n > 0` = `n`
ancestors up), `type` (one of `tag`, `id`, `class`, `attr`, `pseudo`)
and the literal CSS fragment `selector`. -/
structure Desc where
  cost : Nat
  level : Int
  type : String
  selector : String
deriving DecidableEq, Repr

/-- An index-annotated descriptor.  The index models JavaScript object
identity of the freshly allocated descriptor objects inside one array,
so that `includes` / `filter (s => s !== x)` remove exactly one
occurrence even when two descriptors are structurally equal. -/
abbrev IDesc := Nat × Desc

/-- Annotate a descriptor array with positions, modelling the distinct
object references held by a JavaScript array of fresh descriptors. -/
def annotate (l : List Desc) : List IDesc := l.enum

/-- Forget the identity annotation again (the JavaScript side simply
keeps holding the same references). -/
def strip (l : List IDesc) : List Desc := l.map Prod.snd

/- Cost constants from src/config/costs.js. -/

def COST_ID : Nat := 0
def COST_CLASS : Nat := 1
def COST_TAG : Nat := 2
def COST_ATTR : Nat := 3
def COST_PARENT : Nat := 10
def COST_SIBLING : Nat := 100
def COST_CHILDREN : Nat := 100
def COST_DISTANCE : Nat := 1
def COST_IS_HAS : Nat := 5
def COST_NOT : Nat := 10

/-!
BlacklistMatcher (src/utils/BlacklistMatcher.js).

`patternToRegex` escapes every regex metacharacter of the pattern
except `*` and turns each `*` into `.*`, anchored at both ends.  The
resulting regex therefore implements plain glob matching: every pattern
character is literal except `*`, which matches any sequence of
characters.  We embed that glob semantics directly on character lists.
-/

/-- Glob matching of a wildcard pattern (first argument) against a
value, the semantics of the anchored regex produced by
`BlacklistMatcher.#patternToRegex`: every pattern character matches
itself, and `*` (compiled to `.*`) matches an arbitrary amount of the
value, i.e. some suffix of the rest of the value must match the rest of
the pattern. -/
def globMatch : List Char → List Char → Bool
  | [], v => v.isEmpty
  | '*' :: ps, v => v.tails.any fun suffix => globMatch ps suffix
  | p :: ps, v =>
    match v with
    | [] => false
    | c :: vs => p == c && globMatch ps vs

/-- BlacklistMatcher.matches: true when the value matches some pattern
of the list.  A falsy value (the empty string) or an empty pattern list
never matches. -/
def BlacklistMatcher.matches (value : String) (patterns : List String) : Bool :=
  if value = "" ∨ patterns = [] then false
  else patterns.any fun pattern => globMatch pattern.toList value.toList

/- Blacklist constants from src/config/constants.js. -/

def BLACKLIST_IDS : List String := ["*lottie*", "selector-generator"]

def BLACKLIST_CLASSES : List String := ["*-ng-*", "ng-*", "*tw-*", "*[*px]*"]

def BLACKLIST_ATTRIBUTES : List String := ["*-ng-*", "ng-*", "*tw-*", "xmlns*"]

/-!
SelectorBuilder (src/builders/SelectorBuilder.js).  Identical in the
modular sources and in the bundled artifact.
-/

/-- Concatenation of the `selector` fragments of a descriptor list. -/
def joinSels (l : List Desc) : String := String.join (l.map (·.selector))

/-- SelectorBuilder.#simpleBuild: merge the descriptors of one level in
the fixed type order tag, id, class, attr, pseudo. -/
def SelectorBuilder.simpleBuild (selectors : List Desc) : String :=
  let tagSelectors := selectors.filter (fun x => x.type == "tag")
  let idSelectors := selectors.filter (fun x => x.type == "id")
  let classSelectors := selectors.filter (fun x => x.type == "class")
  let attrSelectors := selectors.filter (fun x => x.type == "attr")
  let pseudoSelectors := selectors.filter (fun x => x.type == "pseudo")
  joinSels tagSelectors ++ joinSels idSelectors ++ joinSels classSelectors ++
    joinSels attrSelectors ++ joinSels pseudoSelectors

/-- The own-selector concatenation of SelectorBuilder.build: all
fragments with `level <= 0`, in the fixed type order. -/
def SelectorBuilder.ownConcat (selectorSet : List Desc) : String :=
  let tagSelectors := selectorSet.filter (fun x => x.type == "tag" && decide (x.level ≤ 0))
  let idSelectors := selectorSet.filter (fun x => x.type == "id" && decide (x.level ≤ 0))
  let classSelectors := selectorSet.filter (fun x => x.type == "class" && decide (x.level ≤ 0))
  let attrSelectors := selectorSet.filter (fun x => x.type == "attr" && decide (x.level ≤ 0))
  let pseudoSelectors := selectorSet.filter (fun x => x.type == "pseudo" && decide (x.level ≤ 0))
  joinSels tagSelectors ++ joinSels idSelectors ++ joinSels classSelectors ++
    joinSels attrSelectors ++ joinSels pseudoSelectors

/-- The keys of the insertion-ordered `levelMap` of
SelectorBuilder.build: the distinct levels in first-occurrence order. -/
def levelKeys (parentSelectors : List Desc) : List Int :=
  parentSelectors.foldl
    (fun acc d => if acc.contains d.level then acc else acc ++ [d.level]) []

/-- One step of the combinator fold of SelectorBuilder.build: prepend
the merged group of `level`, with `>` when the level is exactly one
above the previously processed level and a descendant space
otherwise. -/
def SelectorBuilder.prependLevel (parentSelectors : List Desc)
    (acc : String × Int) (level : Int) : String × Int :=
  let levelSelector :=
    SelectorBuilder.simpleBuild (parentSelectors.filter (fun ps => ps.level == level))
  if level = acc.2 + 1 then (levelSelector ++ " > " ++ acc.1, level)
  else (levelSelector ++ " " ++ acc.1, level)

/-- SelectorBuilder.build: the own fragments (`level <= 0`, empty
rendered as the universal selector `*`) with the ancestor level groups
sorted ascending and prepended with the appropriate combinators. -/
def SelectorBuilder.build (selectorSet : List Desc) : String :=
  let parentSelectors := selectorSet.filter (fun x => decide (0 < x.level))
  let selector := SelectorBuilder.ownConcat selectorSet
  let selector := if selector = "" then "*" else selector
  if parentSelectors.length = 0 then selector
  else
    -- JavaScript sorts the (distinct) numeric keys ascending
    let levels := (levelKeys parentSelectors).insertionSort (· ≤ ·)
    (levels.foldl (SelectorBuilder.prependLevel parentSelectors) (selector, 0)).1

/-!
Element data.  The local generator reads only the element's own
identity: its `localName`, its `id`, the ordered list of attribute
names and its class list.  `idAttr = none` models an absent `id`
attribute (`getAttribute("id") === null`); the `id` property of such an
element is the empty string.  `textNodes` counts the non-element child
nodes (text/comment), so `childNodes.length` is the number of element
children plus `textNodes`.
-/

structure EData where
  localName : String
  idAttr : Option String := none
  attrNames : List String := []
  classList : List String := []
  textNodes : Nat := 0
deriving DecidableEq, Repr

/-- The `id` property of an element: the id attribute or the empty
string when absent. -/
def EData.id (e : EData) : String := e.idAttr.getD ""

/-!
LocalSelectorGenerator (src/generators/LocalSelectorGenerator.js),
modular-source version: per-element descriptor generation, then
intersection by the full `(level, type, selector)` triple.  `CSS.escape`
is the browser's identifier-escaping routine, passed as the opaque
parameter `esc`.
-/

/-- The attribute loop of the per-element part of
LocalSelectorGenerator.generate: walks `element.attributes` in order;
the `class` attribute contributes one `class` descriptor per
non-blacklisted class, every other non-blacklisted attribute name
contributes an `attr` descriptor. -/
def LocalSelectorGenerator.attrLoop (esc : String → String) (e : EData) : List Desc :=
  e.attrNames.foldl
    (fun sels name =>
      if name = "class" then
        sels ++ e.classList.foldl
          (fun acc currentClass =>
            if BlacklistMatcher.matches currentClass BLACKLIST_CLASSES then acc
            else acc ++ [⟨COST_CLASS, 0, "class", "." ++ esc currentClass⟩]) []
      else if BlacklistMatcher.matches name BLACKLIST_ATTRIBUTES then sels
      else sels ++ [⟨COST_ATTR, 0, "attr", "[" ++ esc name ++ "]"⟩])
    []

/-- The per-element body of LocalSelectorGenerator.generate: an `id`
descriptor when the id is nonempty and not blacklisted, always a `tag`
descriptor, then the attribute loop. -/
def LocalSelectorGenerator.elementSels (esc : String → String) (e : EData) : List Desc :=
  (if e.id ≠ "" ∧ ¬ BlacklistMatcher.matches e.id BLACKLIST_IDS then
    [⟨COST_ID, 0, "id", "#" ++ esc e.id⟩]
  else [])
  ++ [⟨COST_TAG, 0, "tag", e.localName⟩]
  ++ LocalSelectorGenerator.attrLoop esc e

/-- LocalSelectorGenerator.generate (modular sources): generate per
element, then keep the descriptors of the first element's set whose
`(level, type, selector)` triple occurs in every element's set. -/
def LocalSelectorGenerator.generate (esc : String → String)
    (elements : List EData) : List Desc :=
  let elementSelectors := elements.map (LocalSelectorGenerator.elementSels esc)
  match elementSelectors with
  | [] => []
  | firstSet :: _ =>
      firstSet.filter fun descriptor =>
        elementSelectors.all fun set =>
          set.any fun d =>
            d.level == descriptor.level && d.type == descriptor.type &&
              d.selector == descriptor.selector

/-!
TopDownSelectorOptimizer (src/optimizers/TopDownSelectorOptimizer.js),
modular-source version.  The DOM query collaborator
(`DOMService.querySelectorAll`) is the opaque parameter `q`; element
references are an arbitrary type with decidable (object) equality.
-/

/-- The body of TopDownSelectorOptimizer.getValue after the builder
call, taking the built selector string explicitly: an empty string and
a zero match count are invalid (`null`), as is any target element
missing from the results; otherwise the match count is paired with the
summed cost of the set. -/
def TopDownSelectorOptimizer.getValueFrom {E : Type} [DecidableEq E]
    (q : String → List E) (elements : List E) (selector : String)
    (selectorSet : List Desc) : Option (Nat × Nat) :=
  if selector = "" then none
  else
    let results := q selector
    let count := results.length
    if count = 0 then none
    else if elements.all (fun element => results.contains element) then
      some (count, selectorSet.foldl (fun sum descriptor => sum + descriptor.cost) 0)
    else
      -- the source loop returns null at the first missing target
      none

/-- TopDownSelectorOptimizer.getValue: build the set, then evaluate. -/
def TopDownSelectorOptimizer.getValue {E : Type} [DecidableEq E]
    (q : String → List E) (elements : List E) (selectorSet : List Desc) :
    Option (Nat × Nat) :=
  TopDownSelectorOptimizer.getValueFrom q elements
    (SelectorBuilder.build selectorSet) selectorSet

/-- The inner for-loop of TopDownSelectorOptimizer.findBest: scan the
cost-descending list for the first removable descriptor (still present,
not the `level = 0` `tag` anchor) whose removal keeps the match count at
`startingCount`; return the reduced set of the first success. -/
def TopDownSelectorOptimizer.scanRemove {E : Type} [DecidableEq E]
    (q : String → List E) (elements : List E) (startingCount : Nat)
    (currentSet : List IDesc) : List IDesc → Option (List IDesc)
  | [] => none
  | selectorToRemove :: rest =>
    if ¬ currentSet.contains selectorToRemove then
      TopDownSelectorOptimizer.scanRemove q elements startingCount currentSet rest
    else if selectorToRemove.2.level = 0 ∧ selectorToRemove.2.type = "tag" then
      TopDownSelectorOptimizer.scanRemove q elements startingCount currentSet rest
    else
      let trialSet := currentSet.filter (fun s => s ≠ selectorToRemove)
      match TopDownSelectorOptimizer.getValue q elements (strip trialSet) with
      | some trialValue =>
          if trialValue.1 = startingCount then some trialSet
          else TopDownSelectorOptimizer.scanRemove q elements startingCount currentSet rest
      | none => TopDownSelectorOptimizer.scanRemove q elements startingCount currentSet rest

/-- The while-loop of TopDownSelectorOptimizer.findBest.  Each
successful scan removes exactly one descriptor, so the loop runs at
most `currentSet.length + 1` times; `findBest` passes that much fuel,
hence the fuel-exhaustion branch is never taken there. -/
def TopDownSelectorOptimizer.reduceLoop {E : Type} [DecidableEq E]
    (q : String → List E) (elements : List E) (startingCount : Nat)
    (sortedSelectors : List IDesc) : Nat → List IDesc → List IDesc
  | 0, currentSet => currentSet
  | fuel + 1, currentSet =>
    if currentSet.length ≤ 1 then currentSet
    else
      match TopDownSelectorOptimizer.scanRemove q elements startingCount
          currentSet sortedSelectors with
      | none => currentSet
      | some newSet =>
          TopDownSelectorOptimizer.reduceLoop q elements startingCount
            sortedSelectors fuel newSet

/-- TopDownSelectorOptimizer.findBest (modular sources).  Note that the
source computes `startingCount` from the value of the full set and then
guards on `!currentValue || currentValue.count !== startingCount`: the
second disjunct compares the count to itself, so the diagnostic branch
fires exactly when the full set's value is `null`.  The debug-optimizer
call on that branch only feeds `console` output and is dropped here. -/
def TopDownSelectorOptimizer.findBest {E : Type} [DecidableEq E]
    (q : String → List E) (targetElements : List E) (selectors : List Desc) :
    List Desc :=
  let currentSet := annotate selectors
  let currentValue := TopDownSelectorOptimizer.getValue q targetElements (strip currentSet)
  let startingCount := match currentValue with | some v => v.1 | none => 0
  match currentValue with
  | none => strip currentSet
  | some v =>
      if v.1 ≠ startingCount then
        -- dead branch: startingCount was defined as v.1 just above;
        -- kept to mirror the source guard
        strip currentSet
      else
        -- stable sort of a copy, cost descending (worst first)
        let sortedSelectors := currentSet.insertionSort (fun a b => b.2.cost ≤ a.2.cost)
        strip (TopDownSelectorOptimizer.reduceLoop q targetElements startingCount
          sortedSelectors (currentSet.length + 1) currentSet)

/-!
BottomUpSelectorOptimizer (src/optimizers/BottomUpSelectorOptimizer.js),
modular-source, single-target version.  JavaScript selector values are
either a positive match count or `Infinity`; we model them as
`Option Nat` with `none` for the `Infinity` sentinel.
-/

/-- The `Infinity` sentinel of the bottom-up optimizer's value space. -/
def INFINITY : Option Nat := none

/-- JavaScript comparison `localBestValue - trialValue >= threshold` on
count-or-Infinity values (`Infinity - Infinity` is `NaN`, which
compares false). -/
def jsImproves (localBestValue trialValue : Option Nat) (threshold : Nat) : Bool :=
  match localBestValue, trialValue with
  | none, none => false
  | none, some _ => true
  | some _, none => false
  | some n, some m => m + threshold ≤ n

/-- JavaScript comparison `bestValue - localBestValue > 0` on
count-or-Infinity values. -/
def jsGtZero (bestValue localBestValue : Option Nat) : Bool :=
  match bestValue, localBestValue with
  | none, none => false
  | none, some _ => true
  | some _, none => false
  | some n, some m => m < n

/-- The body of BottomUpSelectorOptimizer.getValue after the builder
call: empty string, zero matches, or target missing from the results
give the `Infinity` sentinel, otherwise the match count. -/
def BottomUpSelectorOptimizer.getValueFrom {E : Type} [DecidableEq E]
    (q : String → List E) (element : E) (selector : String) : Option Nat :=
  if selector = "" then INFINITY
  else
    let results := q selector
    let count := results.length
    if count = 0 then INFINITY
    else if results.contains element then some count
    else INFINITY

/-- BottomUpSelectorOptimizer.getValue: build the set, then evaluate. -/
def BottomUpSelectorOptimizer.getValue {E : Type} [DecidableEq E]
    (q : String → List E) (element : E) (selectorSet : List Desc) : Option Nat :=
  BottomUpSelectorOptimizer.getValueFrom q element (SelectorBuilder.build selectorSet)

/-- The inner for-loop of BottomUpSelectorOptimizer.findBest: walk the
(sorted) selector array, trial-adding each descriptor to the committed
best set, keeping the local best under the improvement threshold, and
breaking as soon as a trial value hits 1.  The first state component is
the `trialSelectorSet` variable of the source, which the `includes`
skip of the next iteration reads. -/
def BottomUpSelectorOptimizer.pass {E : Type} [DecidableEq E]
    (q : String → List E) (element : E) (threshold : Nat)
    (bestSelectorSet : List IDesc) :
    List IDesc → List IDesc → List IDesc → Option Nat → List IDesc × Option Nat
  | [], _, localBestSet, localBestValue => (localBestSet, localBestValue)
  | currentSelector :: rest, trialSet, localBestSet, localBestValue =>
    if trialSet.contains currentSelector then
      BottomUpSelectorOptimizer.pass q element threshold bestSelectorSet rest
        trialSet localBestSet localBestValue
    else if bestSelectorSet.length = 0 ∧ 0 < currentSelector.2.level then
      BottomUpSelectorOptimizer.pass q element threshold bestSelectorSet rest
        trialSet localBestSet localBestValue
    else
      let trialSet := bestSelectorSet ++ [currentSelector]
      let trialValue := BottomUpSelectorOptimizer.getValue q element (strip trialSet)
      let nextBest :=
        if jsImproves localBestValue trialValue threshold then (trialSet, trialValue)
        else (localBestSet, localBestValue)
      if trialValue = some 1 then nextBest
      else
        BottomUpSelectorOptimizer.pass q element threshold bestSelectorSet rest
          trialSet nextBest.1 nextBest.2

/-- The while-loop of BottomUpSelectorOptimizer.findBest for a finite
committed best value `b`.  A further commit strictly decreases the
value, which bounds the recursion; the boolean marks the early
`return bestSelectorSet` taken when the committed value reaches 1. -/
def BottomUpSelectorOptimizer.whileNat {E : Type} [DecidableEq E]
    (q : String → List E) (element : E) (selectors : List IDesc) (threshold : Nat)
    (bestSelectorSet : List IDesc) (b : Nat) : List IDesc × Option Nat × Bool :=
  let localBest := BottomUpSelectorOptimizer.pass q element threshold bestSelectorSet
    selectors bestSelectorSet bestSelectorSet (some b)
  match localBest with
  | (lSet, some m) =>
      if _h : m < b then
        if m = 1 then (lSet, some m, true)
        else BottomUpSelectorOptimizer.whileNat q element selectors threshold lSet m
      else (bestSelectorSet, some b, false)
  | (_, none) => (bestSelectorSet, some b, false)
termination_by b

/-- The while-loop of BottomUpSelectorOptimizer.findBest started at the
`Infinity` best value: the first commit (any finite local best) hands
over to the finite-value loop. -/
def BottomUpSelectorOptimizer.whileTop {E : Type} [DecidableEq E]
    (q : String → List E) (element : E) (selectors : List IDesc) (threshold : Nat)
    (bestSelectorSet : List IDesc) : List IDesc × Option Nat × Bool :=
  let localBest := BottomUpSelectorOptimizer.pass q element threshold bestSelectorSet
    selectors bestSelectorSet bestSelectorSet INFINITY
  match localBest with
  | (lSet, some m) =>
      if m = 1 then (lSet, some m, true)
      else BottomUpSelectorOptimizer.whileNat q element selectors threshold lSet m
  | (_, none) => (bestSelectorSet, INFINITY, false)

/-- The threshold descent of BottomUpSelectorOptimizer.findBest:
thresholds 16, 8, 4, 2, 1, stopping early on the in-loop return. -/
def BottomUpSelectorOptimizer.thresholdLoop {E : Type} [DecidableEq E]
    (q : String → List E) (element : E) (selectors : List IDesc) :
    List Nat → List IDesc × Option Nat → List IDesc × Option Nat
  | [], st => st
  | threshold :: rest, (bestSelectorSet, bestValue) =>
      let step :=
        match bestValue with
        | none => BottomUpSelectorOptimizer.whileTop q element selectors threshold
            bestSelectorSet
        | some b => BottomUpSelectorOptimizer.whileNat q element selectors threshold
            bestSelectorSet b
      if step.2.2 then (step.1, step.2.1)
      else BottomUpSelectorOptimizer.thresholdLoop q element selectors rest
        (step.1, step.2.1)

/-- BottomUpSelectorOptimizer.findBest (modular sources).  The source
starts with `selectors.sort((a, b) => a.cost - b.cost)`: an in-place,
stable, cost-ascending sort of the caller's array, which the rest of
the function then iterates.  The first component is the returned best
set, the second is the contents of the caller's array after the call
(the mutation effect). -/
def BottomUpSelectorOptimizer.findBest {E : Type} [DecidableEq E]
    (q : String → List E) (element : E) (selectors : List Desc) :
    List Desc × List Desc :=
  let sorted := (annotate selectors).insertionSort (fun a b => a.2.cost ≤ b.2.cost)
  let final := BottomUpSelectorOptimizer.thresholdLoop q element sorted
    [16, 8, 4, 2, 1] ([], INFINITY)
  (strip final.1, strip sorted)

/-!
Document model for the bundled pipeline.  A document is a tree of
elements; an element reference is the path of child indices from the
root (JavaScript object identity of document nodes is path equality).
Non-element child nodes are only ever counted, so each node stores that
count (`EData.textNodes`).
-/

/-- A document tree: element data plus the ordered element children. -/
inductive Dom where
  | node (data : EData) (kids : List Dom)

/-- The element data of the root node of a tree. -/
def Dom.data : Dom → EData
  | .node d _ => d

/-- The element children of the root node of a tree. -/
def Dom.kids : Dom → List Dom
  | .node _ k => k

/-- An element reference: the child-index path from the document root. -/
abbrev NPath := List Nat

/-- Resolve a path to the subtree it denotes, if any. -/
def nodeAt : Dom → NPath → Option Dom
  | t, [] => some t
  | t, i :: p =>
    match t.kids[i]? with
    | some c => nodeAt c p
    | none => none

/-- The element data at a path (defaulting for dangling paths, which
never arise for references handed out by the document). -/
def dAt (doc : Dom) (p : NPath) : EData :=
  match nodeAt doc p with
  | some t => t.data
  | none => ⟨"", none, [], [], 0⟩

/-- The subtree at a path, defaulting for dangling paths. -/
def subtreeAt (doc : Dom) (p : NPath) : Dom :=
  (nodeAt doc p).getD (.node ⟨"", none, [], [], 0⟩ [])

/-- The number of element children at a path
(`element.children.length`). -/
def childCount (doc : Dom) (p : NPath) : Nat :=
  match nodeAt doc p with
  | some t => t.kids.length
  | none => 0

/-- `element.parentElement`: drop the last path step; the root has no
parent element. -/
def parentPath (p : NPath) : Option NPath :=
  if p = [] then none else some p.dropLast

/-- The index of an element among its parent's element children
(`Array.from(parent.children).indexOf(element)`). -/
def lastIdx (p : NPath) : Nat := (p.getLast?).getD 0

/-- `element.previousElementSibling`. -/
def prevElementSibling (p : NPath) : Option NPath :=
  if p = [] then none
  else if lastIdx p = 0 then none
  else some (p.dropLast ++ [lastIdx p - 1])

/-- `element.nextElementSibling`. -/
def nextElementSibling (doc : Dom) (p : NPath) : Option NPath :=
  if p = [] then none
  else if lastIdx p + 1 < childCount doc p.dropLast then
    some (p.dropLast ++ [lastIdx p + 1])
  else none

/-- The proper ancestors of a path, nearest first, ending with the
root `[]` (the chain walked by `parentElement` until null). -/
def properAncestors (p : NPath) : List NPath :=
  (List.range p.length).map fun k => p.take (p.length - 1 - k)

/-!
The bundled (dist) pipeline.  It differs from the modular sources in
two ways relevant to the claims: every generator intersects per-element
descriptor sets by `selector` string only, and the attribute blacklist
additionally contains the literal patterns `id` and `style`.
-/

/-- The attribute blacklist of the bundled artifact's constants. -/
def Dist.BLACKLIST_ATTRIBUTES : List String :=
  ["id", "style", "*-ng-*", "ng-*", "*tw-*", "xmlns*"]

/-- The common multi-target intersection block of every bundled
generator: keep the descriptors of the first element's set whose
`selector` string occurs in every element's set. -/
def Dist.intersectBySelector (elementSelectors : List (List Desc)) : List Desc :=
  match elementSelectors with
  | [] => []
  | firstSet :: _ =>
      firstSet.filter fun descriptor =>
        elementSelectors.all fun set =>
          set.any fun d => d.selector == descriptor.selector

/-- The attribute loop of the bundled LocalSelectorGenerator (same code
as the modular one, but referring to the bundled attribute
blacklist). -/
def Dist.attrLoop (esc : String → String) (e : EData) : List Desc :=
  e.attrNames.foldl
    (fun sels name =>
      if name = "class" then
        sels ++ e.classList.foldl
          (fun acc currentClass =>
            if BlacklistMatcher.matches currentClass BLACKLIST_CLASSES then acc
            else acc ++ [⟨COST_CLASS, 0, "class", "." ++ esc currentClass⟩]) []
      else if BlacklistMatcher.matches name Dist.BLACKLIST_ATTRIBUTES then sels
      else sels ++ [⟨COST_ATTR, 0, "attr", "[" ++ esc name ++ "]"⟩])
    []

/-- The per-element body of the bundled LocalSelectorGenerator. -/
def Dist.elementSels (esc : String → String) (e : EData) : List Desc :=
  (if e.id ≠ "" ∧ ¬ BlacklistMatcher.matches e.id BLACKLIST_IDS then
    [⟨COST_ID, 0, "id", "#" ++ esc e.id⟩]
  else [])
  ++ [⟨COST_TAG, 0, "tag", e.localName⟩]
  ++ Dist.attrLoop esc e

/-- The bundled LocalSelectorGenerator.generate on element data
(selector-string intersection). -/
def Dist.localGenerateData (esc : String → String) (ds : List EData) : List Desc :=
  Dist.intersectBySelector (ds.map (Dist.elementSels esc))

/-- The bundled LocalSelectorGenerator.generate on element
references. -/
def Dist.LocalSelectorGenerator.generate (doc : Dom) (esc : String → String)
    (elements : List NPath) : List Desc :=
  Dist.localGenerateData esc (elements.map (dAt doc))

/-- AttributeCollector.collectExtraIds (bundled artifact): the
CSS-escaped, non-blacklisted ids of the given elements other than the
target. -/
def Dist.AttributeCollector.collectExtraIds (doc : Dom) (esc : String → String)
    (targetElement : NPath) (elements : List NPath) : List String :=
  elements.foldl
    (fun extraIds currentElement =>
      if currentElement = targetElement then extraIds
      else
        match (dAt doc currentElement).idAttr with
        | some id =>
            if BlacklistMatcher.matches id BLACKLIST_IDS then extraIds
            else extraIds ++ [esc id]
        | none => extraIds)
    []

/-- AttributeCollector.collectExtraClasses: classes of the other
elements that the target does not have.  Note that the source checks
list membership against the raw class name while pushing the escaped
one; the embedding repeats that exactly. -/
def Dist.AttributeCollector.collectExtraClasses (doc : Dom) (esc : String → String)
    (targetElement : NPath) (elements : List NPath) : List String :=
  elements.foldl
    (fun extraClasses currentElement =>
      if currentElement = targetElement then extraClasses
      else
        (dAt doc currentElement).classList.foldl
          (fun acc currentClass =>
            if ¬ (dAt doc targetElement).classList.contains currentClass ∧
                ¬ acc.contains currentClass ∧
                ¬ BlacklistMatcher.matches currentClass BLACKLIST_CLASSES then
              acc ++ [esc currentClass]
            else acc)
          extraClasses)
    []

/-- AttributeCollector.collectExtraAttributes: attribute names of the
other elements that the target does not have (raw-name membership
check, escaped push, as in the source). -/
def Dist.AttributeCollector.collectExtraAttributes (doc : Dom) (esc : String → String)
    (targetElement : NPath) (elements : List NPath) : List String :=
  elements.foldl
    (fun extraAttr currentElement =>
      if currentElement = targetElement then extraAttr
      else
        (dAt doc currentElement).attrNames.foldl
          (fun acc name =>
            if ¬ (dAt doc targetElement).attrNames.contains name ∧
                ¬ acc.contains name ∧
                ¬ BlacklistMatcher.matches name Dist.BLACKLIST_ATTRIBUTES then
              acc ++ [esc name]
            else acc)
          extraAttr)
    []

/-- The per-element body of the bundled LocalExclusionGenerator:
query the document for everything matching the element's own local
selector and negate the extra marks of the co-matching nodes. -/
def Dist.LocalExclusionGenerator.exclusionSels (doc : Dom) (q : String → List NPath)
    (esc : String → String) (element : NPath) : List Desc :=
  let localSelectors := Dist.LocalSelectorGenerator.generate doc esc [element]
  let baseSelector := SelectorBuilder.build localSelectors
  let matchedElements := q baseSelector
  let extraIds := Dist.AttributeCollector.collectExtraIds doc esc element matchedElements
  let extraClasses := Dist.AttributeCollector.collectExtraClasses doc esc element matchedElements
  let extraAttributes := Dist.AttributeCollector.collectExtraAttributes doc esc element matchedElements
  extraIds.map (fun i => ⟨COST_NOT + COST_ID, 0, "pseudo", ":not(#" ++ i ++ ")"⟩)
  ++ extraClasses.map (fun c => ⟨COST_NOT + COST_CLASS, 0, "pseudo", ":not(." ++ c ++ ")"⟩)
  ++ extraAttributes.map (fun a => ⟨COST_NOT + COST_ATTR, 0, "pseudo", ":not([" ++ a ++ "])"⟩)

/-- The bundled LocalExclusionGenerator.generate. -/
def Dist.LocalExclusionGenerator.generate (doc : Dom) (q : String → List NPath)
    (esc : String → String) (elements : List NPath) : List Desc :=
  Dist.intersectBySelector (elements.map (Dist.LocalExclusionGenerator.exclusionSels doc q esc))

/-- ChildrenSelectorGenerator.#processChildren: the recursive walk over
the target's subtree, emitting structural `:has` descriptors.
`childNodes.length` is the element-children count plus the non-element
count. -/
def Dist.ChildrenSelectorGenerator.processChildren (esc : String → String) :
    Dom → Nat → List Desc
  | .node d kids, depth =>
    let depthSelector := String.join (List.replicate depth ">*")
    if kids.length = 0 then
      if 0 < kids.length + d.textNodes ∧ depth = 0 then
        [⟨depth * COST_DISTANCE + COST_NOT + COST_IS_HAS + COST_CHILDREN, 0, "pseudo",
          ":not(:has(>*))"⟩]
      else if kids.length + d.textNodes = 0 then
        [⟨depth * COST_DISTANCE + COST_IS_HAS + COST_CHILDREN, 0, "pseudo",
          if 0 < depth then ":has(" ++ depthSelector ++ ":empty)" else ":empty"⟩]
        ++ (if 0 < depth then
              [⟨COST_DISTANCE + COST_IS_HAS + COST_CHILDREN, 0, "pseudo", ":has(:empty)"⟩]
            else [])
      else []
    else
      [⟨depth * COST_DISTANCE + COST_IS_HAS + COST_CHILDREN, 0, "pseudo",
        if 0 < depth then
          ":has(" ++ depthSelector ++ ">*:nth-child(" ++ toString kids.length ++ "):last-child)"
        else ":has(:nth-child(" ++ toString kids.length ++ "):last-child)"⟩]
      ++ (if 0 < depth then
            [⟨COST_DISTANCE + COST_IS_HAS + COST_CHILDREN, 0, "pseudo",
              ":has(* :nth-child(" ++ toString kids.length ++ "):last-child)"⟩]
          else [])
      ++ (kids.attach.map (fun c =>
            -- this.localGenerator.generate([child])
            let localSelectors := Dist.localGenerateData esc [c.1.data]
            (localSelectors.map (fun s =>
              [(⟨depth * COST_DISTANCE + COST_IS_HAS + COST_CHILDREN + s.cost, 0, "pseudo",
                if 0 < depth then ":has(" ++ depthSelector ++ ">" ++ s.selector ++ ")"
                else ":has(>" ++ s.selector ++ ")"⟩ : Desc)]
              ++ (if 0 < depth then
                    [⟨COST_DISTANCE + COST_IS_HAS + COST_CHILDREN + s.cost, 0, "pseudo",
                      ":has(* " ++ s.selector ++ ")"⟩]
                  else []))).flatten
            ++ Dist.ChildrenSelectorGenerator.processChildren esc c.1 (depth + 1))).flatten
termination_by t _ => sizeOf t
decreasing_by
  have hmem := c.2
  have := List.sizeOf_lt_of_mem hmem
  simp only [Dom.node.sizeOf_spec]
  omega

/-- The bundled ChildrenSelectorGenerator.generate. -/
def Dist.ChildrenSelectorGenerator.generate (doc : Dom) (esc : String → String)
    (elements : List NPath) : List Desc :=
  Dist.intersectBySelector (elements.map fun element =>
    Dist.ChildrenSelectorGenerator.processChildren esc (subtreeAt doc element) 0)

/-- The per-element body of the bundled SiblingSelectorGenerator:
positional pseudo-classes, then relative-identity descriptors for every
earlier and later sibling (the source's comment/text node-type skips
are vacuous, since `previousElementSibling`/`nextElementSibling` only
ever yield elements). -/
def Dist.SiblingSelectorGenerator.siblingSels (doc : Dom) (esc : String → String)
    (element : NPath) : List Desc :=
  let prevSibling := prevElementSibling element
  let nextSibling := nextElementSibling doc element
  let parentLen :=
    match parentPath element with
    | some pp => childCount doc pp
    | none => 0
  let idx := lastIdx element
  let prevSiblingCount := if prevSibling.isSome then idx else 0
  let nextSiblingCount := if nextSibling.isSome then parentLen - idx else 0
  let sels : List Desc :=
    (if prevSibling.isNone then
      [⟨(nextSiblingCount + 1) * COST_DISTANCE + COST_SIBLING, 0, "pseudo", ":first-child"⟩]
    else
      [⟨(prevSiblingCount + 1) * COST_DISTANCE + COST_SIBLING, 0, "pseudo",
        ":nth-child(" ++ toString (prevSiblingCount + 1) ++ ")"⟩])
    ++ (if nextSibling.isNone then
        [⟨(prevSiblingCount + 1) * COST_DISTANCE + COST_SIBLING, 0, "pseudo", ":last-child"⟩]
      else if 0 < prevSiblingCount then
        [⟨(nextSiblingCount + 1) * COST_DISTANCE + COST_SIBLING, 0, "pseudo",
          ":nth-last-child(" ++ toString nextSiblingCount ++ ")"⟩]
      else [])
    ++ (if prevSibling.isNone ∧ nextSibling.isNone then
        [⟨COST_SIBLING, 0, "pseudo", ":only-child"⟩]
      else [])
  let sels := (List.range idx).reverse.foldl
    (fun sels j =>
      let localSelectors := Dist.localGenerateData esc [dAt doc (element.dropLast ++ [j])]
      localSelectors.foldl
        (fun sels currentSelector =>
          let sStr := ":is(" ++ currentSelector.selector ++ " ~ *)"
          if sels.any (fun s => s.selector == sStr) then sels
          else sels ++ [⟨COST_SIBLING + COST_IS_HAS + currentSelector.cost, 0, "pseudo", sStr⟩])
        sels)
    sels
  (List.range (parentLen - (idx + 1))).foldl
    (fun sels k =>
      let localSelectors := Dist.localGenerateData esc [dAt doc (element.dropLast ++ [idx + 1 + k])]
      localSelectors.foldl
        (fun sels currentSelector =>
          let sStr := ":has(~ " ++ currentSelector.selector ++ ")"
          if sels.any (fun s => s.selector == sStr) then sels
          else sels ++ [⟨COST_SIBLING + COST_IS_HAS + currentSelector.cost, 0, "pseudo", sStr⟩])
        sels)
    sels

/-- The bundled SiblingSelectorGenerator.generate. -/
def Dist.SiblingSelectorGenerator.generate (doc : Dom) (esc : String → String)
    (elements : List NPath) : List Desc :=
  Dist.intersectBySelector (elements.map (Dist.SiblingSelectorGenerator.siblingSels doc esc))

/-- The per-element body of the bundled ParentSelectorGenerator: at
each ancestor depth, the local, exclusion and sibling descriptors of
that ancestor, re-tagged with the ancestor level and its distance
cost. -/
def Dist.ParentSelectorGenerator.parentSels (doc : Dom) (q : String → List NPath)
    (esc : String → String) (element : NPath) : List Desc :=
  ((properAncestors element).enum.map fun ke =>
    let level := ke.1 + 1
    let currentParent := ke.2
    (Dist.LocalSelectorGenerator.generate doc esc [currentParent]
      ++ Dist.LocalExclusionGenerator.generate doc q esc [currentParent]
      ++ Dist.SiblingSelectorGenerator.generate doc esc [currentParent]).map
      fun currentSelector =>
        ⟨level * COST_DISTANCE + COST_PARENT + currentSelector.cost, (level : Int),
          currentSelector.type, currentSelector.selector⟩).flatten

/-- The bundled ParentSelectorGenerator.generate. -/
def Dist.ParentSelectorGenerator.generate (doc : Dom) (q : String → List NPath)
    (esc : String → String) (elements : List NPath) : List Desc :=
  Dist.intersectBySelector (elements.map (Dist.ParentSelectorGenerator.parentSels doc q esc))

/-- The per-element body of the bundled ChildrenExclusionGenerator:
query all descendants of anything matching the element's local
selector, and negate the identifying marks (id, class, attribute) that
the non-subtree descendants carry and the element's own subtree does
not (probed through the scoped `element.querySelector`, the opaque
parameter `sq`). -/
def Dist.ChildrenExclusionGenerator.childExclSels (doc : Dom) (q : String → List NPath)
    (sq : NPath → String → Bool) (esc : String → String) (element : NPath) : List Desc :=
  let elementSelector := Dist.LocalSelectorGenerator.generate doc esc [element]
  let childrenSelector := SelectorBuilder.build elementSelector ++ " *"
  let allChildren := q childrenSelector
  let st := allChildren.foldl
    (fun (st : List Desc × List String × List String) currentChild =>
      -- element.contains(currentChild): currentChild lies in the subtree of element
      if element.isPrefixOf currentChild then st
      else
        let sels :=
          match (dAt doc currentChild).idAttr with
          | some id =>
              if BlacklistMatcher.matches id BLACKLIST_IDS then st.1
              else st.1 ++ [⟨COST_NOT + COST_IS_HAS + COST_CHILDREN + COST_ID, 0, "pseudo",
                ":not(:has(#" ++ esc id ++ "))"⟩]
          | none => st.1
        let extraClasses := (dAt doc currentChild).classList.foldl
          (fun acc currentClass =>
            if ¬ sq element ("." ++ esc currentClass) ∧ ¬ acc.contains currentClass ∧
                ¬ BlacklistMatcher.matches currentClass BLACKLIST_CLASSES then
              acc ++ [esc currentClass]
            else acc)
          st.2.1
        let extraAttr := (dAt doc currentChild).attrNames.foldl
          (fun acc name =>
            if ¬ sq element ("[" ++ esc name ++ "]") ∧ ¬ acc.contains name ∧
                ¬ BlacklistMatcher.matches name Dist.BLACKLIST_ATTRIBUTES then
              acc ++ [esc name]
            else acc)
          st.2.2
        (sels, extraClasses, extraAttr))
    ([], [], [])
  st.1
  ++ st.2.1.map (fun c => ⟨COST_NOT + COST_IS_HAS + COST_CHILDREN + COST_CLASS, 0, "pseudo",
      ":not(:has(." ++ c ++ "))"⟩)
  ++ st.2.2.map (fun a => ⟨COST_NOT + COST_IS_HAS + COST_CHILDREN + COST_ATTR, 0, "pseudo",
      ":not(:has([" ++ a ++ "]))"⟩)

/-- The bundled ChildrenExclusionGenerator.generate. -/
def Dist.ChildrenExclusionGenerator.generate (doc : Dom) (q : String → List NPath)
    (sq : NPath → String → Bool) (esc : String → String) (elements : List NPath) : List Desc :=
  Dist.intersectBySelector
    (elements.map (Dist.ChildrenExclusionGenerator.childExclSels doc q sq esc))

/-!
DebugOptimizer (src/optimizers/DebugOptimizer.js) and the bundled
TopDownSelectorOptimizer.findBest.  The bundled getValue is identical
to the modular one (`TopDownSelectorOptimizer.getValue` above), and the
bundled reduction loop is the same loop with the target count in place
of the starting count, so those embeddings are reused.
-/

/-- DebugOptimizer.matches.  The element argument is optional because
the bundled findBest passes `targetElements[0]`, which is `undefined`
for an empty target list; `includes(undefined)` on a node list is
always false. -/
def DebugOptimizer.matches {E : Type} [DecidableEq E] (q : String → List E)
    (element : Option E) (selectorSet : List Desc) : Bool :=
  let selector := SelectorBuilder.build selectorSet
  if selector = "" then false
  else
    match element with
    | some e => (q selector).contains e
    | none => false

/-- The index loop of DebugOptimizer.findMinimalNonMatchingSet, walking
the start index downward; each step keeps the erasure if the set still
does not match. -/
def DebugOptimizer.removeLoop {E : Type} [DecidableEq E] (q : String → List E)
    (element : Option E) : Nat → List IDesc → List IDesc
  | 0, result => result
  | i + 1, result =>
    let trialSet := result.eraseIdx i
    DebugOptimizer.removeLoop q element i
      (if DebugOptimizer.matches q element (strip trialSet) then result else trialSet)

/-- DebugOptimizer.findMinimalNonMatchingSet: one descending pass over
the indices of the input set. -/
def DebugOptimizer.findMinimalNonMatchingSet {E : Type} [DecidableEq E]
    (q : String → List E) (element : Option E) (selectors : List IDesc) : List IDesc :=
  DebugOptimizer.removeLoop q element selectors.length selectors

/-- The bundled TopDownSelectorOptimizer.findBest: the diagnostic
branch fires whenever the full set's value is `null` or its match count
differs from the number of targets; it runs the debug optimizer (for
console output only) and returns the full unreduced set.  Otherwise the
reduction loop preserves the target count. -/
def Dist.TopDownSelectorOptimizer.findBest {E : Type} [DecidableEq E]
    (q : String → List E) (elements : List E) (selectors : List Desc) : List Desc :=
  let currentSet := annotate selectors
  let currentValue := TopDownSelectorOptimizer.getValue q elements (strip currentSet)
  let targetCount := elements.length
  match currentValue with
  | none =>
      let _ := DebugOptimizer.findMinimalNonMatchingSet q elements[0]? currentSet
      strip currentSet
  | some v =>
      if v.1 ≠ targetCount then
        let _ := DebugOptimizer.findMinimalNonMatchingSet q elements[0]? currentSet
        strip currentSet
      else
        let sortedSelectors := currentSet.insertionSort (fun a b => b.2.cost ≤ a.2.cost)
        strip (TopDownSelectorOptimizer.reduceLoop q elements targetCount
          sortedSelectors (currentSet.length + 1) currentSet)

/-- The index of the first element (from 1) whose parent differs from
the first element's parent, if any — the check `getSelector` performs
for multi-element calls. -/
def firstParentMismatch (elems : List NPath) : Option Nat :=
  match elems with
  | [] => none
  | first :: rest =>
      (rest.enum.find? fun je => decide (parentPath je.2 ≠ parentPath first)).map
        fun je => je.1 + 1

/-- The bundled SelectorGenerator.getSelector.  The argument models the
array-call form (a bare element `x` corresponds to `[some x]` after the
`Array.isArray` normalization); `none` entries model values that are
not HTML/SVG elements.  Validation errors and the multi-element
same-parent check surface as `Except.error`, everything after runs the
six bundled generators, the bundled top-down optimizer and the
builder. -/
def Dist.SelectorGenerator.getSelector (doc : Dom) (q : String → List NPath)
    (sq : NPath → String → Bool) (esc : String → String)
    (elements : List (Option NPath)) : Except String String :=
  if elements.any (fun e => e.isNone) then
    Except.error "Not an SVG/HTMLElement"
  else
    let normalizedElements := elements.reduceOption
    match firstParentMismatch normalizedElements with
    | some i =>
        Except.error ("All elements must share the same parent for multi-element selector generation (element "
          ++ toString i ++ " differs)")
    | none =>
        let selectors :=
          Dist.LocalSelectorGenerator.generate doc esc normalizedElements
          ++ Dist.LocalExclusionGenerator.generate doc q esc normalizedElements
          ++ Dist.ChildrenSelectorGenerator.generate doc esc normalizedElements
          ++ Dist.SiblingSelectorGenerator.generate doc esc normalizedElements
          ++ Dist.ParentSelectorGenerator.generate doc q esc normalizedElements
          ++ Dist.ChildrenExclusionGenerator.generate doc q sq esc normalizedElements
        let bestSelectorSet := Dist.TopDownSelectorOptimizer.findBest q normalizedElements selectors
        Except.ok (SelectorBuilder.build bestSelectorSet)

/-!
Concrete fixture for the top-down diagnostic-path claim: one target
element 0; the full descriptor set builds "div.a[b]" which matches two
elements, dropping the attribute descriptor still matches two, and
dropping the class descriptor matches three.
-/

def qC2 : String → List Nat := fun s =>
  if s = "div.a[b]" then [0, 1]
  else if s = "div.a" then [0, 1]
  else if s = "div" then [0, 1, 2]
  else []

/-- The caller's array after TopDownSelectorOptimizer.findBest: the
function sorts a copy (`[...currentSet].sort`) and never mutates the
input array, so the post-call contents are the input itself; paired
with the result for the frame-effect claim. -/
def TopDownSelectorOptimizer.findBestWithArray {E : Type} [DecidableEq E]
    (q : String → List E) (targetElements : List E) (selectors : List Desc) :
    List Desc × List Desc :=
  (TopDownSelectorOptimizer.findBest q targetElements selectors, selectors)

instance : IsTotal IDesc fun a b => a.2.cost ≤ b.2.cost :=
  ⟨fun a b => Nat.le_total a.2.cost b.2.cost⟩

instance : IsTrans IDesc fun a b => a.2.cost ≤ b.2.cost :=
  ⟨fun _ _ _ => Nat.le_trans⟩

/-!
Helper lemmas about strings, annotation and the builder.
-/

theorem string_empty_append (s : String) : "" ++ s = s := by
  cases s; rfl

theorem string_append_ne_empty (s t : String) (h : t ≠ "") : s ++ t ≠ "" := by
  intro hc
  apply h
  have hd := congrArg String.data hc
  simp only [String.data_append] at hd
  cases s with
  | mk ds =>
    cases t with
    | mk dt => simp_all

theorem strip_annotate (l : List Desc) : strip (annotate l) = l := by
  simp [strip, annotate, List.enum_map_snd]

theorem joinSels_nil : joinSels [] = "" := rfl

theorem joinSels_singleton (d : Desc) : joinSels [d] = d.selector := by
  simp only [joinSels, List.map_cons, List.map_nil, String.join,
    List.foldl_cons, List.foldl_nil]
  exact string_empty_append d.selector

theorem simpleBuild_singleton (p : Desc)
    (h : p.type = "tag" ∨ p.type = "id" ∨ p.type = "class" ∨ p.type = "attr" ∨
      p.type = "pseudo") :
    SelectorBuilder.simpleBuild [p] = p.selector := by
  rcases h with h | h | h | h | h <;>
    simp [SelectorBuilder.simpleBuild, List.filter, h, joinSels_singleton,
      joinSels_nil, string_empty_append]

theorem ownConcat_append_pos (S0 P : List Desc) (hP : ∀ d ∈ P, 0 < d.level) :
    SelectorBuilder.ownConcat (S0 ++ P) = SelectorBuilder.ownConcat S0 := by
  have hnil : ∀ ty : String,
      P.filter (fun x => x.type == ty && decide (x.level ≤ 0)) = [] := by
    intro ty
    rw [List.filter_eq_nil_iff]
    intro a ha
    have := hP a ha
    simp only [Bool.and_eq_true, beq_iff_eq, decide_eq_true_eq, not_and]
    intro _
    omega
  simp [SelectorBuilder.ownConcat, List.filter_append, hnil]

theorem parents_filter_append (S0 P : List Desc) (h0 : ∀ d ∈ S0, d.level ≤ 0) :
    (S0 ++ P).filter (fun x => decide (0 < x.level)) =
      P.filter (fun x => decide (0 < x.level)) := by
  have hnil : S0.filter (fun x => decide (0 < x.level)) = [] := by
    rw [List.filter_eq_nil_iff]
    intro a ha
    have := h0 a ha
    simp only [decide_eq_true_eq, not_lt]
    omega
  simp [List.filter_append, hnil]

theorem build_no_parents (S : List Desc)
    (h : S.filter (fun x => decide (0 < x.level)) = []) :
    SelectorBuilder.build S =
      (if SelectorBuilder.ownConcat S = "" then "*" else SelectorBuilder.ownConcat S) := by
  simp [SelectorBuilder.build, h]

theorem foldl_prependLevel_prefix (parents : List Desc) (levels : List Int)
    (own : String) (prev : Int) :
    ∃ pre, (levels.foldl (SelectorBuilder.prependLevel parents) (own, prev)).1 = pre ++ own := by
  induction levels generalizing own prev with
  | nil => exact ⟨"", (string_empty_append own).symm ▸ rfl⟩
  | cons x ls ih =>
    simp only [List.foldl_cons, SelectorBuilder.prependLevel]
    by_cases hx : x = prev + 1
    · rw [if_pos hx]
      obtain ⟨pre, hpre⟩ := ih
        (SelectorBuilder.simpleBuild (parents.filter fun ps => ps.level == x) ++ " > " ++ own) x
      refine ⟨pre ++ (SelectorBuilder.simpleBuild (parents.filter fun ps => ps.level == x) ++ " > "), ?_⟩
      rw [hpre]
      simp [String.append_assoc]
    · rw [if_neg hx]
      obtain ⟨pre, hpre⟩ := ih
        (SelectorBuilder.simpleBuild (parents.filter fun ps => ps.level == x) ++ " " ++ own) x
      refine ⟨pre ++ (SelectorBuilder.simpleBuild (parents.filter fun ps => ps.level == x) ++ " "), ?_⟩
      rw [hpre]
      simp [String.append_assoc]

theorem build_star_suffix (S : List Desc) (h : SelectorBuilder.ownConcat S = "") :
    ∃ pre, SelectorBuilder.build S = pre ++ "*" := by
  by_cases hp : S.filter (fun x => decide (0 < x.level)) = []
  · exact ⟨"", by rw [build_no_parents S hp, if_pos h]; exact (string_empty_append "*").symm⟩
  · simp only [SelectorBuilder.build, h, if_pos rfl]
    rw [if_neg (by simpa [List.length_eq_zero] using hp)]
    exact foldl_prependLevel_prefix _ _ "*" 0

theorem build_ne_empty (S : List Desc) : SelectorBuilder.build S ≠ "" := by
  by_cases h : SelectorBuilder.ownConcat S = ""
  · obtain ⟨pre, hpre⟩ := build_star_suffix S h
    rw [hpre]
    exact string_append_ne_empty pre "*" (by decide)
  · by_cases hp : S.filter (fun x => decide (0 < x.level)) = []
    · rw [build_no_parents S hp, if_neg h]
      exact h
    · simp only [SelectorBuilder.build, if_neg h]
      rw [if_neg (by simpa [List.length_eq_zero] using hp)]
      obtain ⟨pre, hpre⟩ := foldl_prependLevel_prefix
        (S.filter (fun x => decide (0 < x.level)))
        (((levelKeys (S.filter (fun x => decide (0 < x.level))))).insertionSort (· ≤ ·))
        (SelectorBuilder.ownConcat S) 0
      rw [hpre]
      exact string_append_ne_empty pre _ h

theorem build_append_one_parent (S0 : List Desc) (h0 : ∀ d ∈ S0, d.level ≤ 0) (p : Desc)
    (hp : 0 < p.level)
    (ht : p.type = "tag" ∨ p.type = "id" ∨ p.type = "class" ∨ p.type = "attr" ∨
      p.type = "pseudo") :
    SelectorBuilder.build (S0 ++ [p]) =
      if p.level = 1 then p.selector ++ " > " ++ SelectorBuilder.build S0
      else p.selector ++ " " ++ SelectorBuilder.build S0 := by
  have hS0p : S0.filter (fun x => decide (0 < x.level)) = [] := by
    rw [List.filter_eq_nil_iff]
    intro a ha
    have := h0 a ha
    simp only [decide_eq_true_eq]
    omega
  have hparents : (S0 ++ [p]).filter (fun x => decide (0 < x.level)) = [p] := by
    rw [parents_filter_append S0 [p] h0]
    simp [List.filter, hp]
  have hown := ownConcat_append_pos S0 [p]
    (by intro d hd; simp only [List.mem_singleton] at hd; subst hd; exact hp)
  have hkeys : levelKeys [p] = [p.level] := by simp [levelKeys]
  rw [SelectorBuilder.build, hparents, hown, ← build_no_parents S0 hS0p]
  rw [if_neg (by simp)]
  rw [hkeys]
  simp only [List.insertionSort, List.orderedInsert, List.foldl_cons, List.foldl_nil,
    SelectorBuilder.prependLevel]
  rw [show ([p].filter fun ps => ps.level == p.level) = [p] by simp [List.filter]]
  rw [simpleBuild_singleton p ht]
  by_cases h1 : p.level = 1
  · rw [if_pos (by omega), if_pos h1]
  · rw [if_neg (by omega), if_neg h1]

theorem build_append_two_parents (S0 : List Desc) (h0 : ∀ d ∈ S0, d.level ≤ 0)
    (pa pb : Desc) (hpa : pa.level = 1) (hpb : pb.level = 3)
    (hta : pa.type = "tag" ∨ pa.type = "id" ∨ pa.type = "class" ∨ pa.type = "attr" ∨
      pa.type = "pseudo")
    (htb : pb.type = "tag" ∨ pb.type = "id" ∨ pb.type = "class" ∨ pb.type = "attr" ∨
      pb.type = "pseudo") :
    SelectorBuilder.build (S0 ++ [pa, pb]) =
      pb.selector ++ " " ++ (pa.selector ++ " > " ++ SelectorBuilder.build S0) := by
  have hS0p : S0.filter (fun x => decide (0 < x.level)) = [] := by
    rw [List.filter_eq_nil_iff]
    intro a ha
    have := h0 a ha
    simp only [decide_eq_true_eq]
    omega
  have hparents : (S0 ++ [pa, pb]).filter (fun x => decide (0 < x.level)) = [pa, pb] := by
    rw [parents_filter_append S0 [pa, pb] h0]
    simp [List.filter, hpa, hpb]
  have hown := ownConcat_append_pos S0 [pa, pb]
    (by
      intro d hd
      simp only [List.mem_cons, List.mem_singleton, List.not_mem_nil, or_false] at hd
      rcases hd with hd | hd <;> subst hd <;> omega)
  have hkeys : levelKeys [pa, pb] = [1, 3] := by
    simp [levelKeys, hpa, hpb]
  rw [SelectorBuilder.build, hparents, hown, ← build_no_parents S0 hS0p]
  rw [if_neg (by simp)]
  rw [hkeys]
  rw [show ([(1 : Int), 3].insertionSort (· ≤ ·)) = [1, 3] by decide]
  simp only [List.foldl_cons, List.foldl_nil, SelectorBuilder.prependLevel]
  rw [show ([pa, pb].filter fun ps => ps.level == (1 : Int)) = [pa] by
    simp [List.filter, hpa, hpb]]
  rw [show ([pa, pb].filter fun ps => ps.level == (3 : Int)) = [pb] by
    simp [List.filter, hpa, hpb]]
  rw [simpleBuild_singleton pa hta, simpleBuild_singleton pb htb]
  norm_num

/-- C5: in SelectorBuilder.build, ancestor level groups are sorted
ascending and prepended to the own selector; a level exactly one above
the previously processed level (starting from 0) is joined with the
child combinator, a larger gap with the descendant combinator: levels
(at most 0) plus 1 build "lvl1 > own", plus 2 build "lvl2 own", and
plus 1 and 3 build "lvl3 lvl1 > own". -/
theorem build_level_combinator_law (S0 : List Desc) (h0 : ∀ d ∈ S0, d.level ≤ 0)
    (p1 p2 p3 : Desc) (hp1 : p1.level = 1) (hp2 : p2.level = 2) (hp3 : p3.level = 3)
    (ht1 : p1.type = "tag" ∨ p1.type = "id" ∨ p1.type = "class" ∨ p1.type = "attr" ∨
      p1.type = "pseudo")
    (ht2 : p2.type = "tag" ∨ p2.type = "id" ∨ p2.type = "class" ∨ p2.type = "attr" ∨
      p2.type = "pseudo")
    (ht3 : p3.type = "tag" ∨ p3.type = "id" ∨ p3.type = "class" ∨ p3.type = "attr" ∨
      p3.type = "pseudo") :
    SelectorBuilder.build (S0 ++ [p1]) = p1.selector ++ " > " ++ SelectorBuilder.build S0 ∧
    SelectorBuilder.build (S0 ++ [p2]) = p2.selector ++ " " ++ SelectorBuilder.build S0 ∧
    SelectorBuilder.build (S0 ++ [p1, p3]) =
      p3.selector ++ " " ++ p1.selector ++ " > " ++ SelectorBuilder.build S0 := by
  refine ⟨?_, ?_, ?_⟩
  · rw [build_append_one_parent S0 h0 p1 (by omega) ht1, if_pos hp1]
  · rw [build_append_one_parent S0 h0 p2 (by omega) ht2, if_neg (by omega)]
  · rw [build_append_two_parents S0 h0 p1 p3 hp1 hp3 ht1 ht3]
    simp [String.append_assoc]

/-- C5 witness: the combinator law applied to a concrete own set and
concrete ancestor fragments. -/
theorem build_level_combinator_law_witness :
    SelectorBuilder.build ([⟨2, 0, "tag", "div"⟩] ++ [⟨2, 1, "tag", "A1"⟩]) =
      "A1" ++ " > " ++ SelectorBuilder.build [⟨2, 0, "tag", "div"⟩] ∧
    SelectorBuilder.build ([⟨2, 0, "tag", "div"⟩] ++ [⟨2, 2, "tag", "A2"⟩]) =
      "A2" ++ " " ++ SelectorBuilder.build [⟨2, 0, "tag", "div"⟩] ∧
    SelectorBuilder.build ([⟨2, 0, "tag", "div"⟩] ++ [⟨2, 1, "tag", "A1"⟩, ⟨2, 3, "tag", "A3"⟩]) =
      "A3" ++ " " ++ "A1" ++ " > " ++ SelectorBuilder.build [⟨2, 0, "tag", "div"⟩] :=
  build_level_combinator_law [⟨2, 0, "tag", "div"⟩] (by decide)
    ⟨2, 1, "tag", "A1"⟩ ⟨2, 2, "tag", "A2"⟩ ⟨2, 3, "tag", "A3"⟩
    rfl rfl rfl (Or.inl rfl) (Or.inl rfl) (Or.inl rfl)

/-- C6: a descriptor set whose level-at-most-0 fragments concatenate to
the empty string renders the own-selector position as the universal
selector, never as the empty string; in particular building the empty
set yields the universal selector, and a build result is never
empty. -/
theorem build_universal_fallback :
    SelectorBuilder.build [] = "*" ∧
    (∀ S : List Desc, SelectorBuilder.ownConcat S = "" →
      S.filter (fun x => decide (0 < x.level)) = [] → SelectorBuilder.build S = "*") ∧
    (∀ S : List Desc, SelectorBuilder.ownConcat S = "" →
      ∃ pre, SelectorBuilder.build S = pre ++ "*") ∧
    (∀ S : List Desc, SelectorBuilder.build S ≠ "") := by
  refine ⟨rfl, ?_, build_star_suffix, build_ne_empty⟩
  intro S hown hpar
  rw [build_no_parents S hpar, if_pos hown]

/-- C6 witness: the universal fallback evaluated on the empty set and
on a parent-only set. -/
theorem build_universal_fallback_witness :
    SelectorBuilder.build [] = "*" ∧
    SelectorBuilder.build ([] : List Desc) = "*" ∧
    (∃ pre, SelectorBuilder.build [⟨0, 2, "tag", "A2"⟩] = pre ++ "*") ∧
    SelectorBuilder.build [⟨0, 2, "tag", "A2"⟩] ≠ "" :=
  ⟨build_universal_fallback.1,
    build_universal_fallback.2.1 [] rfl rfl,
    build_universal_fallback.2.2.1 [⟨0, 2, "tag", "A2"⟩] rfl,
    build_universal_fallback.2.2.2 [⟨0, 2, "tag", "A2"⟩]⟩

/-!
Provenance of the descriptors emitted by the local generator's
per-element body, for the blacklist-exclusion claim.
-/

theorem classFold_mem (esc : String → String) (cls : List String) (acc : List Desc)
    (d : Desc)
    (h : d ∈ cls.foldl
      (fun acc currentClass =>
        if BlacklistMatcher.matches currentClass BLACKLIST_CLASSES then acc
        else acc ++ [⟨COST_CLASS, 0, "class", "." ++ esc currentClass⟩]) acc) :
    d ∈ acc ∨ ∃ c ∈ cls, BlacklistMatcher.matches c BLACKLIST_CLASSES = false ∧
      d = ⟨COST_CLASS, 0, "class", "." ++ esc c⟩ := by
  induction cls generalizing acc with
  | nil => exact Or.inl h
  | cons c cs ih =>
    simp only [List.foldl_cons] at h
    rcases ih _ h with hin | ⟨c', hc', hbl, hd⟩
    · by_cases hb : BlacklistMatcher.matches c BLACKLIST_CLASSES
      · rw [if_pos hb] at hin
        exact Or.inl hin
      · rw [if_neg hb] at hin
        rcases List.mem_append.1 hin with h1 | h2
        · exact Or.inl h1
        · exact Or.inr ⟨c, List.mem_cons_self c cs,
            Bool.eq_false_iff.2 hb, by simpa using h2⟩
    · exact Or.inr ⟨c', List.mem_cons_of_mem c hc', hbl, hd⟩

theorem attrLoop_fold_mem (esc : String → String) (e : EData) (names : List String)
    (acc : List Desc) (d : Desc)
    (h : d ∈ names.foldl
      (fun sels name =>
        if name = "class" then
          sels ++ e.classList.foldl
            (fun acc currentClass =>
              if BlacklistMatcher.matches currentClass BLACKLIST_CLASSES then acc
              else acc ++ [⟨COST_CLASS, 0, "class", "." ++ esc currentClass⟩]) []
        else if BlacklistMatcher.matches name BLACKLIST_ATTRIBUTES then sels
        else sels ++ [⟨COST_ATTR, 0, "attr", "[" ++ esc name ++ "]"⟩]) acc) :
    d ∈ acc ∨
    (∃ c ∈ e.classList, BlacklistMatcher.matches c BLACKLIST_CLASSES = false ∧
      d = ⟨COST_CLASS, 0, "class", "." ++ esc c⟩) ∨
    (∃ name ∈ names, name ≠ "class" ∧
      BlacklistMatcher.matches name BLACKLIST_ATTRIBUTES = false ∧
      d = ⟨COST_ATTR, 0, "attr", "[" ++ esc name ++ "]"⟩) := by
  induction names generalizing acc with
  | nil => exact Or.inl h
  | cons name rest ih =>
    simp only [List.foldl_cons] at h
    rcases ih _ h with hin | hcls | ⟨n', hn', hnc, hbl, hd⟩
    · by_cases hc : name = "class"
      · rw [if_pos hc] at hin
        rcases List.mem_append.1 hin with h1 | h2
        · exact Or.inl h1
        · rcases classFold_mem esc e.classList [] d h2 with hnil | hfound
          · simp at hnil
          · exact Or.inr (Or.inl hfound)
      · rw [if_neg hc] at hin
        by_cases hb : BlacklistMatcher.matches name BLACKLIST_ATTRIBUTES
        · rw [if_pos hb] at hin
          exact Or.inl hin
        · rw [if_neg hb] at hin
          rcases List.mem_append.1 hin with h1 | h2
          · exact Or.inl h1
          · exact Or.inr (Or.inr ⟨name, List.mem_cons_self name rest, hc,
              Bool.eq_false_iff.2 hb, by simpa using h2⟩)
    · exact Or.inr (Or.inl hcls)
    · exact Or.inr (Or.inr ⟨n', List.mem_cons_of_mem name hn', hnc, hbl, hd⟩)

theorem elementSels_mem (esc : String → String) (e : EData) (d : Desc)
    (h : d ∈ LocalSelectorGenerator.elementSels esc e) :
    (e.id ≠ "" ∧ BlacklistMatcher.matches e.id BLACKLIST_IDS = false ∧
      d = ⟨COST_ID, 0, "id", "#" ++ esc e.id⟩) ∨
    d = ⟨COST_TAG, 0, "tag", e.localName⟩ ∨
    (∃ c ∈ e.classList, BlacklistMatcher.matches c BLACKLIST_CLASSES = false ∧
      d = ⟨COST_CLASS, 0, "class", "." ++ esc c⟩) ∨
    (∃ name ∈ e.attrNames, name ≠ "class" ∧
      BlacklistMatcher.matches name BLACKLIST_ATTRIBUTES = false ∧
      d = ⟨COST_ATTR, 0, "attr", "[" ++ esc name ++ "]"⟩) := by
  simp only [LocalSelectorGenerator.elementSels, List.append_assoc, List.mem_append] at h
  rcases h with hid | hrest
  · left
    by_cases hc : e.id ≠ "" ∧ ¬ BlacklistMatcher.matches e.id BLACKLIST_IDS
    · rw [if_pos hc] at hid
      exact ⟨hc.1, Bool.eq_false_iff.2 hc.2, by simpa using hid⟩
    · rw [if_neg hc] at hid
      simp at hid
  · rcases hrest with htag | hloop
    · exact Or.inr (Or.inl (by simpa using htag))
    · rcases attrLoop_fold_mem esc e e.attrNames [] d hloop with hnil | hcls | hattr
      · simp at hnil
      · exact Or.inr (Or.inr (Or.inl hcls))
      · exact Or.inr (Or.inr (Or.inr hattr))

/-- C8: an element whose id matches the wildcard blacklist (for example
the id "lottie-player-3", matching the pattern with lottie between
wildcards) never yields an id-type descriptor from the local
generator's per-element body; and every attr-type descriptor it emits
comes from a non-blacklisted attribute name, so the attribute literally
named xmlns (which the blacklist matches) never yields one. -/
theorem local_generator_blacklist_exclusion :
    (∀ (esc : String → String) (e : EData),
      BlacklistMatcher.matches e.id BLACKLIST_IDS = true →
      ∀ d ∈ LocalSelectorGenerator.elementSels esc e, d.type ≠ "id") ∧
    (∀ (esc : String → String) (e : EData),
      BlacklistMatcher.matches e.id BLACKLIST_IDS = true →
      ∀ d ∈ LocalSelectorGenerator.generate esc [e], d.type ≠ "id") ∧
    (∀ (esc : String → String) (e : EData) (d : Desc),
      d ∈ LocalSelectorGenerator.elementSels esc e → d.type = "attr" →
      ∃ name, name ∈ e.attrNames ∧ name ≠ "class" ∧ name ≠ "xmlns" ∧
        BlacklistMatcher.matches name BLACKLIST_ATTRIBUTES = false ∧
        d.selector = "[" ++ esc name ++ "]") ∧
    BlacklistMatcher.matches "lottie-player-3" BLACKLIST_IDS = true ∧
    BlacklistMatcher.matches "xmlns" BLACKLIST_ATTRIBUTES = true := by
  have hsels : ∀ (esc : String → String) (e : EData),
      BlacklistMatcher.matches e.id BLACKLIST_IDS = true →
      ∀ d ∈ LocalSelectorGenerator.elementSels esc e, d.type ≠ "id" := by
    intro esc e hbl d hd
    rcases elementSels_mem esc e d hd with ⟨_, hfalse, _⟩ | htag | ⟨c, _, _, hde⟩ | ⟨n, _, _, _, hde⟩
    · rw [hbl] at hfalse
      cases hfalse
    · rw [htag]
      simp
    · rw [hde]
      simp
    · rw [hde]
      simp
  refine ⟨hsels, ?_, ?_, by decide, by decide⟩
  · intro esc e hbl d hd
    have hmem : d ∈ LocalSelectorGenerator.elementSels esc e := by
      simp only [LocalSelectorGenerator.generate, List.map_cons, List.map_nil] at hd
      exact (List.mem_filter.1 hd).1
    exact hsels esc e hbl d hmem
  · intro esc e d hd htype
    rcases elementSels_mem esc e d hd with ⟨_, _, hde⟩ | htag | ⟨c, _, _, hde⟩ | ⟨n, hn, hnc, hnb, hde⟩
    · rw [hde] at htype
      simp [Desc.type] at htype
    · rw [htag] at htype
      simp [Desc.type] at htype
    · rw [hde] at htype
      simp [Desc.type] at htype
    · refine ⟨n, hn, hnc, ?_, hnb, by rw [hde]⟩
      intro hx
      rw [hx] at hnb
      have : BlacklistMatcher.matches "xmlns" BLACKLIST_ATTRIBUTES = true := by decide
      rw [this] at hnb
      cases hnb

/-- C8 witness: the blacklist exclusion applied to a concrete element
with id "lottie-player-3" and an attribute named xmlns. -/
theorem local_generator_blacklist_exclusion_witness :
    (∀ d ∈ LocalSelectorGenerator.elementSels id
        ⟨"svg", some "lottie-player-3", ["id", "xmlns", "viewBox"], [], 0⟩,
      d.type ≠ "id") ∧
    (∃ name,
      name ∈ (⟨"svg", some "lottie-player-3", ["id", "xmlns", "viewBox"], [], 0⟩ : EData).attrNames ∧
      name ≠ "class" ∧ name ≠ "xmlns" ∧
      BlacklistMatcher.matches name BLACKLIST_ATTRIBUTES = false ∧
      (⟨COST_ATTR, 0, "attr", "[viewBox]"⟩ : Desc).selector = "[" ++ id name ++ "]") :=
  ⟨local_generator_blacklist_exclusion.1 id
      ⟨"svg", some "lottie-player-3", ["id", "xmlns", "viewBox"], [], 0⟩ (by decide),
    local_generator_blacklist_exclusion.2.2.1 id
      ⟨"svg", some "lottie-player-3", ["id", "xmlns", "viewBox"], [], 0⟩
      ⟨COST_ATTR, 0, "attr", "[viewBox]"⟩ (by decide) rfl⟩

/-- C7: for a call of the local generator (modular sources) with
multiple target elements, the returned descriptor set consists exactly
of those descriptors of the first element's per-node set whose
(level, type, selector) triple also occurs in every other target
element's per-node set. -/
theorem local_generate_triple_intersection (esc : String → String) (e0 : EData)
    (rest : List EData) (_hm : rest ≠ []) (d : Desc) :
    d ∈ LocalSelectorGenerator.generate esc (e0 :: rest) ↔
      (d ∈ LocalSelectorGenerator.elementSels esc e0 ∧
        ∀ e ∈ e0 :: rest, ∃ dd ∈ LocalSelectorGenerator.elementSels esc e,
          dd.level = d.level ∧ dd.type = d.type ∧ dd.selector = d.selector) := by
  constructor
  · intro h
    simp only [LocalSelectorGenerator.generate, List.map_cons, List.mem_filter,
      List.all_eq_true, List.any_eq_true, Bool.and_eq_true, beq_iff_eq] at h
    obtain ⟨hfirst, hall⟩ := h
    refine ⟨hfirst, ?_⟩
    intro e he
    rcases List.mem_cons.1 he with he0 | herest
    · subst he0
      obtain ⟨dd, hdd, hprops⟩ := hall _ (List.mem_cons_self _ _)
      exact ⟨dd, hdd, hprops.1.1, hprops.1.2, hprops.2⟩
    · obtain ⟨dd, hdd, hprops⟩ :=
        hall _ (List.mem_cons_of_mem _ (List.mem_map_of_mem _ herest))
      exact ⟨dd, hdd, hprops.1.1, hprops.1.2, hprops.2⟩
  · rintro ⟨hfirst, hall⟩
    simp only [LocalSelectorGenerator.generate, List.map_cons, List.mem_filter,
      List.all_eq_true, List.any_eq_true, Bool.and_eq_true, beq_iff_eq]
    refine ⟨hfirst, ?_⟩
    intro set hset
    rcases List.mem_cons.1 hset with h0 | hmap
    · subst h0
      obtain ⟨dd, hdd, h1, h2, h3⟩ := hall e0 (List.mem_cons_self _ _)
      exact ⟨dd, hdd, ⟨h1, h2⟩, h3⟩
    · obtain ⟨e, he, rfl⟩ := List.mem_map.1 hmap
      obtain ⟨dd, hdd, h1, h2, h3⟩ := hall e (List.mem_cons_of_mem _ he)
      exact ⟨dd, hdd, ⟨h1, h2⟩, h3⟩

/-- C7 witness: the triple-intersection characterization applied to two
concrete elements sharing the class a. -/
theorem local_generate_triple_intersection_witness :
    (⟨1, 0, "class", ".a"⟩ : Desc) ∈ LocalSelectorGenerator.generate id
        [⟨"div", none, ["class"], ["a"], 0⟩, ⟨"span", none, ["class"], ["a", "b"], 0⟩] ↔
      ((⟨1, 0, "class", ".a"⟩ : Desc) ∈ LocalSelectorGenerator.elementSels id
          ⟨"div", none, ["class"], ["a"], 0⟩ ∧
        ∀ e ∈ [(⟨"div", none, ["class"], ["a"], 0⟩ : EData),
            ⟨"span", none, ["class"], ["a", "b"], 0⟩],
          ∃ dd ∈ LocalSelectorGenerator.elementSels id e,
            dd.level = (⟨1, 0, "class", ".a"⟩ : Desc).level ∧
            dd.type = (⟨1, 0, "class", ".a"⟩ : Desc).type ∧
            dd.selector = (⟨1, 0, "class", ".a"⟩ : Desc).selector) :=
  local_generate_triple_intersection id ⟨"div", none, ["class"], ["a"], 0⟩
    [⟨"span", none, ["class"], ["a", "b"], 0⟩] (by decide) ⟨1, 0, "class", ".a"⟩

/-- C9: for both real optimizers, a candidate whose built selector
string is empty is invalid (null for the top-down optimizer, the
Infinity sentinel for the bottom-up one); a candidate whose query
returns zero matches is invalid; and a candidate whose query results
miss any target element is invalid regardless of the match count. -/
theorem optimizer_getValue_invalid_candidates :
    (∀ (E : Type) (_ : DecidableEq E) (q : String → List E) (elements : List E)
      (selectorSet : List Desc),
      TopDownSelectorOptimizer.getValueFrom q elements "" selectorSet = none) ∧
    (∀ (E : Type) (_ : DecidableEq E) (q : String → List E) (element : E),
      BottomUpSelectorOptimizer.getValueFrom q element "" = INFINITY) ∧
    (∀ (E : Type) (_ : DecidableEq E) (q : String → List E) (elements : List E)
      (selectorSet : List Desc),
      q (SelectorBuilder.build selectorSet) = [] →
      TopDownSelectorOptimizer.getValue q elements selectorSet = none) ∧
    (∀ (E : Type) (_ : DecidableEq E) (q : String → List E) (element : E)
      (selectorSet : List Desc),
      q (SelectorBuilder.build selectorSet) = [] →
      BottomUpSelectorOptimizer.getValue q element selectorSet = INFINITY) ∧
    (∀ (E : Type) (_ : DecidableEq E) (q : String → List E) (elements : List E)
      (selectorSet : List Desc) (t : E),
      t ∈ elements → t ∉ q (SelectorBuilder.build selectorSet) →
      TopDownSelectorOptimizer.getValue q elements selectorSet = none) ∧
    (∀ (E : Type) (_ : DecidableEq E) (q : String → List E) (element : E)
      (selectorSet : List Desc),
      element ∉ q (SelectorBuilder.build selectorSet) →
      BottomUpSelectorOptimizer.getValue q element selectorSet = INFINITY) := by
  refine ⟨?_, ?_, ?_, ?_, ?_, ?_⟩
  · intro E _ q elements selectorSet
    simp [TopDownSelectorOptimizer.getValueFrom]
  · intro E _ q element
    simp [BottomUpSelectorOptimizer.getValueFrom]
  · intro E _ q elements selectorSet hq
    rw [TopDownSelectorOptimizer.getValue, TopDownSelectorOptimizer.getValueFrom]
    by_cases hb : SelectorBuilder.build selectorSet = ""
    · rw [if_pos hb]
    · rw [if_neg hb]
      simp [hq]
  · intro E _ q element selectorSet hq
    rw [BottomUpSelectorOptimizer.getValue, BottomUpSelectorOptimizer.getValueFrom]
    by_cases hb : SelectorBuilder.build selectorSet = ""
    · rw [if_pos hb]
    · rw [if_neg hb]
      simp [hq]
  · intro E _ q elements selectorSet t ht hmiss
    rw [TopDownSelectorOptimizer.getValue, TopDownSelectorOptimizer.getValueFrom]
    by_cases hb : SelectorBuilder.build selectorSet = ""
    · rw [if_pos hb]
    · rw [if_neg hb]
      by_cases hz : (q (SelectorBuilder.build selectorSet)).length = 0
      · simp [hz]
      · rw [if_neg hz, if_neg]
        simp only [List.all_eq_true, not_forall]
        refine ⟨t, ht, ?_⟩
        simp [hmiss]
  · intro E _ q element selectorSet hmiss
    rw [BottomUpSelectorOptimizer.getValue, BottomUpSelectorOptimizer.getValueFrom]
    by_cases hb : SelectorBuilder.build selectorSet = ""
    · rw [if_pos hb]
    · rw [if_neg hb]
      by_cases hz : (q (SelectorBuilder.build selectorSet)).length = 0
      · simp [hz]
      · rw [if_neg hz, if_neg]
        simp [hmiss]

/-- C9 witness: the invalid-candidate conditions applied at concrete
inputs (an always-empty query, and a query returning the wrong
node). -/
theorem optimizer_getValue_invalid_candidates_witness :
    TopDownSelectorOptimizer.getValueFrom (fun _ => ([] : List Nat)) [0] "" [] = none ∧
    BottomUpSelectorOptimizer.getValueFrom (fun _ => ([] : List Nat)) 0 "" = INFINITY ∧
    TopDownSelectorOptimizer.getValue (fun _ => ([] : List Nat)) [0] [] = none ∧
    BottomUpSelectorOptimizer.getValue (fun _ => ([] : List Nat)) 0 [] = INFINITY ∧
    TopDownSelectorOptimizer.getValue (fun _ => [1]) [0] [] = none ∧
    BottomUpSelectorOptimizer.getValue (fun _ => [1]) 0 [] = INFINITY :=
  ⟨optimizer_getValue_invalid_candidates.1 Nat inferInstance (fun _ => []) [0] [],
    optimizer_getValue_invalid_candidates.2.1 Nat inferInstance (fun _ => []) 0,
    optimizer_getValue_invalid_candidates.2.2.1 Nat inferInstance (fun _ => []) [0] [] rfl,
    optimizer_getValue_invalid_candidates.2.2.2.1 Nat inferInstance (fun _ => []) 0 [] rfl,
    optimizer_getValue_invalid_candidates.2.2.2.2.1 Nat inferInstance (fun _ => [1]) [0] [] 0
      (by decide) (by decide),
    optimizer_getValue_invalid_candidates.2.2.2.2.2 Nat inferInstance (fun _ => [1]) 0 []
      (by decide)⟩

/-!
Invariants of the top-down reduction loop, for the anchor-preservation
claim.
-/

theorem scanRemove_cases {E : Type} [DecidableEq E] (q : String → List E)
    (elements : List E) (startingCount : Nat) (currentSet : List IDesc)
    (sorted : List IDesc) (s' : List IDesc)
    (h : TopDownSelectorOptimizer.scanRemove q elements startingCount currentSet sorted
      = some s') :
    ∃ x, ¬ (x.2.level = 0 ∧ x.2.type = "tag") ∧
      s' = currentSet.filter (fun s => s ≠ x) := by
  induction sorted with
  | nil => simp [TopDownSelectorOptimizer.scanRemove] at h
  | cons y rest ih =>
    rw [TopDownSelectorOptimizer.scanRemove] at h
    by_cases h1 : ¬ currentSet.contains y
    · rw [if_pos h1] at h
      exact ih h
    · rw [if_neg h1] at h
      by_cases h2 : y.2.level = 0 ∧ y.2.type = "tag"
      · rw [if_pos h2] at h
        exact ih h
      · rw [if_neg h2] at h
        rcases hv : TopDownSelectorOptimizer.getValue q elements
            (strip (currentSet.filter (fun s => s ≠ y))) with _ | v
        · simp only [hv] at h
          exact ih h
        · simp only [hv] at h
          by_cases h3 : v.1 = startingCount
          · rw [if_pos h3] at h
            exact ⟨y, h2, (Option.some_injective _ h).symm⟩
          · rw [if_neg h3] at h
            exact ih h

theorem reduceLoop_invariant {E : Type} [DecidableEq E] (q : String → List E)
    (elements : List E) (startingCount : Nat) (sorted : List IDesc) (fuel : Nat)
    (currentSet : List IDesc) :
    (∀ x ∈ TopDownSelectorOptimizer.reduceLoop q elements startingCount sorted fuel
        currentSet, x ∈ currentSet) ∧
    (∀ x ∈ currentSet, x.2.level = 0 → x.2.type = "tag" →
      x ∈ TopDownSelectorOptimizer.reduceLoop q elements startingCount sorted fuel
        currentSet) := by
  induction fuel generalizing currentSet with
  | zero => exact ⟨fun x hx => by simpa [TopDownSelectorOptimizer.reduceLoop] using hx,
      fun x hx _ _ => by simpa [TopDownSelectorOptimizer.reduceLoop] using hx⟩
  | succ n ih =>
    rw [TopDownSelectorOptimizer.reduceLoop]
    by_cases hlen : currentSet.length ≤ 1
    · rw [if_pos hlen]
      exact ⟨fun x hx => hx, fun x hx _ _ => hx⟩
    · rw [if_neg hlen]
      rcases hscan : TopDownSelectorOptimizer.scanRemove q elements startingCount
          currentSet sorted with _ | s'
      · exact ⟨fun x hx => hx, fun x hx _ _ => hx⟩
      · obtain ⟨y, hy, rfl⟩ := scanRemove_cases q elements startingCount currentSet
          sorted s' hscan
        constructor
        · intro x hx
          have := (ih _).1 x hx
          exact (List.mem_filter.1 this).1
        · intro x hx hl ht
          refine (ih _).2 x ?_ hl ht
          rw [List.mem_filter]
          refine ⟨hx, ?_⟩
          simp only [ne_eq, decide_eq_true_eq]
          intro hxy
          exact hy ⟨hxy ▸ hl, hxy ▸ ht⟩

theorem mem_annotate_of_mem {l : List Desc} {d : Desc} (h : d ∈ l) :
    ∃ i, (i, d) ∈ annotate l := by
  obtain ⟨i, hi⟩ := List.get_of_mem h
  refine ⟨i, ?_⟩
  rw [annotate, List.mk_mem_enum_iff_getElem?]
  simp [List.getElem?_eq_getElem, ← hi]

/-- C3: for every input, the top-down optimizer's result is a subset of
the input descriptor set, and every depth-0 tag descriptor of the input
(the root tag anchor) is still present in the result: the reduction
loop never removes it. -/
theorem topDown_findBest_subset_and_anchor {E : Type} [DecidableEq E]
    (q : String → List E) (targetElements : List E) (selectors : List Desc) :
    (∀ d ∈ TopDownSelectorOptimizer.findBest q targetElements selectors, d ∈ selectors) ∧
    (∀ d ∈ selectors, d.level = 0 → d.type = "tag" →
      d ∈ TopDownSelectorOptimizer.findBest q targetElements selectors) := by
  rcases hv : TopDownSelectorOptimizer.getValue q targetElements
      (strip (annotate selectors)) with _ | v
  · rw [TopDownSelectorOptimizer.findBest]
    simp only [hv]
    rw [strip_annotate]
    exact ⟨fun d hd => hd, fun d hd _ _ => hd⟩
  · rw [TopDownSelectorOptimizer.findBest]
    simp only [hv, ne_eq]
    rw [if_neg (by simp)]
    constructor
    · intro d hd
      obtain ⟨x, hx, rfl⟩ := List.mem_map.1 hd
      have hxin := (reduceLoop_invariant q targetElements v.1
        ((annotate selectors).insertionSort fun a b => b.2.cost ≤ a.2.cost)
        ((annotate selectors).length + 1) (annotate selectors)).1 x hx
      have : x.2 ∈ strip (annotate selectors) := List.mem_map_of_mem Prod.snd hxin
      rwa [strip_annotate] at this
    · intro d hd hl ht
      obtain ⟨i, hi⟩ := mem_annotate_of_mem hd
      have := (reduceLoop_invariant q targetElements v.1
        ((annotate selectors).insertionSort fun a b => b.2.cost ≤ a.2.cost)
        ((annotate selectors).length + 1) (annotate selectors)).2 (i, d) hi hl ht
      exact List.mem_map_of_mem Prod.snd this

/-- C3 witness: subset and anchor preservation evaluated on a concrete
run of the optimizer. -/
theorem topDown_findBest_subset_and_anchor_witness :
    (⟨2, 0, "tag", "div"⟩ : Desc) ∈ TopDownSelectorOptimizer.findBest
      (fun s => if s = "div.a" then [0, 1] else if s = "div" then [0, 1, 2] else ([] : List Nat))
      [0] [⟨2, 0, "tag", "div"⟩, ⟨1, 0, "class", ".a"⟩] :=
  (topDown_findBest_subset_and_anchor
      (fun s => if s = "div.a" then [0, 1] else if s = "div" then [0, 1, 2] else ([] : List Nat))
      [0] [⟨2, 0, "tag", "div"⟩, ⟨1, 0, "class", ".a"⟩]).2
    ⟨2, 0, "tag", "div"⟩ (by decide) rfl rfl

/-- C2: a concrete run of the modular TopDownSelectorOptimizer.findBest
on which the full input set's match count (2) differs from the number
of targets (1), yet the function does not return the full unreduced
input set: because startingCount is computed from the full set's own
value, the guard `currentValue.count !== startingCount` is vacuously
false and the reduction loop runs, removing the attribute descriptor
while preserving the (wrong) count of 2. -/
theorem topDown_findBest_reduces_despite_count_mismatch :
    TopDownSelectorOptimizer.getValue qC2 [0]
        [⟨2, 0, "tag", "div"⟩, ⟨1, 0, "class", ".a"⟩, ⟨3, 0, "attr", "[b]"⟩] =
      some (2, 6) ∧
    (2 : Nat) ≠ ([0] : List Nat).length ∧
    TopDownSelectorOptimizer.findBest qC2 [0]
        [⟨2, 0, "tag", "div"⟩, ⟨1, 0, "class", ".a"⟩, ⟨3, 0, "attr", "[b]"⟩] =
      [⟨2, 0, "tag", "div"⟩, ⟨1, 0, "class", ".a"⟩] ∧
    TopDownSelectorOptimizer.findBest qC2 [0]
        [⟨2, 0, "tag", "div"⟩, ⟨1, 0, "class", ".a"⟩, ⟨3, 0, "attr", "[b]"⟩] ≠
      [⟨2, 0, "tag", "div"⟩, ⟨1, 0, "class", ".a"⟩, ⟨3, 0, "attr", "[b]"⟩] := by
  refine ⟨by decide, by decide, by decide, by decide⟩

/-- C10: BottomUpSelectorOptimizer.findBest sorts the caller's array in
place (its post-call contents are a cost-ascending permutation of the
input, and on a concrete unsorted input they differ from the input),
whereas TopDownSelectorOptimizer.findBest sorts a copy and leaves the
caller's array unchanged. -/
theorem bottomUp_sorts_in_place_topDown_copies {E : Type} [DecidableEq E]
    (q : String → List E) (element : E) (targets : List E) (selectors : List Desc) :
    ((BottomUpSelectorOptimizer.findBest q element selectors).2).Perm selectors ∧
    List.Sorted (fun a b : Desc => a.cost ≤ b.cost)
      ((BottomUpSelectorOptimizer.findBest q element selectors).2) ∧
    (BottomUpSelectorOptimizer.findBest q element
        [⟨3, 0, "attr", "[p]"⟩, ⟨1, 0, "class", ".q"⟩]).2 ≠
      [⟨3, 0, "attr", "[p]"⟩, ⟨1, 0, "class", ".q"⟩] ∧
    (TopDownSelectorOptimizer.findBestWithArray q targets selectors).2 = selectors := by
  have harr : (BottomUpSelectorOptimizer.findBest q element selectors).2 =
      strip ((annotate selectors).insertionSort fun a b => a.2.cost ≤ b.2.cost) := rfl
  refine ⟨?_, ?_, ?_, rfl⟩
  · rw [harr]
    have hperm := List.perm_insertionSort (fun a b : IDesc => a.2.cost ≤ b.2.cost)
      (annotate selectors)
    have := hperm.map Prod.snd
    rwa [show (annotate selectors).map Prod.snd = selectors from strip_annotate selectors] at this
  · rw [harr]
    have hs := List.sorted_insertionSort (fun a b : IDesc => a.2.cost ≤ b.2.cost)
      (annotate selectors)
    exact List.pairwise_map.2 hs
  · rw [show (BottomUpSelectorOptimizer.findBest q element
        [⟨3, 0, "attr", "[p]"⟩, ⟨1, 0, "class", ".q"⟩]).2 =
      [⟨1, 0, "class", ".q"⟩, ⟨3, 0, "attr", "[p]"⟩] from rfl]
    decide

/-!
Behavior of the bundled entry point on degenerate inputs, for the
validation claim.
-/

theorem dist_findBest_nil {E : Type} [DecidableEq E] (q : String → List E) :
    Dist.TopDownSelectorOptimizer.findBest q ([] : List E) ([] : List Desc) = [] := by
  rcases hq : q "*" with _ | ⟨x, xs⟩
  · have hval : TopDownSelectorOptimizer.getValue q ([] : List E)
        (strip (annotate ([] : List Desc))) = none := by
      show TopDownSelectorOptimizer.getValue q ([] : List E) [] = none
      rw [TopDownSelectorOptimizer.getValue,
        show SelectorBuilder.build ([] : List Desc) = "*" from rfl,
        TopDownSelectorOptimizer.getValueFrom]
      rw [if_neg (by decide)]
      simp [hq]
    rw [Dist.TopDownSelectorOptimizer.findBest]
    simp only [hval]
    rfl
  · have hval : TopDownSelectorOptimizer.getValue q ([] : List E)
        (strip (annotate ([] : List Desc))) = some (xs.length + 1, 0) := by
      show TopDownSelectorOptimizer.getValue q ([] : List E) [] = some (xs.length + 1, 0)
      rw [TopDownSelectorOptimizer.getValue,
        show SelectorBuilder.build ([] : List Desc) = "*" from rfl,
        TopDownSelectorOptimizer.getValueFrom]
      rw [if_neg (by decide)]
      simp [hq]
    rw [Dist.TopDownSelectorOptimizer.findBest]
    simp only [hval]
    rw [if_pos (by simp)]
    rfl

theorem dist_getSelector_empty (doc : Dom) (q : String → List NPath)
    (sq : NPath → String → Bool) (esc : String → String) :
    Dist.SelectorGenerator.getSelector doc q sq esc [] = Except.ok "*" := by
  show Except.ok (SelectorBuilder.build (Dist.TopDownSelectorOptimizer.findBest q [] []))
    = Except.ok "*"
  rw [dist_findBest_nil q]
  rfl

/-- C4 (amended): the bundled entry point throws for any value that is
not an element-like node, and, for multi-node calls, when some node's
parent differs from the first node's parent; but a call with zero
nodes is not rejected: the empty array passes validation vacuously and
the call returns the universal selector. -/
theorem dist_getSelector_validation_behavior :
    (∀ (doc : Dom) (q : String → List NPath) (sq : NPath → String → Bool)
      (esc : String → String) (elements : List (Option NPath)),
      none ∈ elements →
      Dist.SelectorGenerator.getSelector doc q sq esc elements =
        Except.error "Not an SVG/HTMLElement") ∧
    (∀ (doc : Dom) (q : String → List NPath) (sq : NPath → String → Bool)
      (esc : String → String) (elements : List (Option NPath)) (i : Nat),
      ¬ none ∈ elements →
      firstParentMismatch elements.reduceOption = some i →
      Dist.SelectorGenerator.getSelector doc q sq esc elements =
        Except.error ("All elements must share the same parent for multi-element selector generation (element "
          ++ toString i ++ " differs)")) ∧
    (∀ (doc : Dom) (q : String → List NPath) (sq : NPath → String → Bool)
      (esc : String → String),
      Dist.SelectorGenerator.getSelector doc q sq esc [] = Except.ok "*") := by
  refine ⟨?_, ?_, dist_getSelector_empty⟩
  · intro doc q sq esc elements hnone
    rw [Dist.SelectorGenerator.getSelector]
    rw [if_pos ?_]
    rw [List.any_eq_true]
    exact ⟨none, hnone, rfl⟩
  · intro doc q sq esc elements i hvalid hmis
    rw [Dist.SelectorGenerator.getSelector]
    rw [if_neg ?_]
    · simp only [hmis]
    · rw [List.any_eq_true]
      rintro ⟨x, hx, hxn⟩
      rcases x with _ | p
      · exact hvalid hx
      · cases hxn

/-- C4 witness: the validation behavior applied to a concrete document
for a non-element value, two elements with different parents, and the
empty node list. -/
theorem dist_getSelector_validation_behavior_witness :
    Dist.SelectorGenerator.getSelector
        (.node ⟨"html", none, [], [], 0⟩ [.node ⟨"body", none, [], [], 0⟩
          [.node ⟨"div", none, [], [], 0⟩ []]])
        (fun _ => []) (fun _ _ => false) id [none] =
      Except.error "Not an SVG/HTMLElement" ∧
    Dist.SelectorGenerator.getSelector
        (.node ⟨"html", none, [], [], 0⟩ [.node ⟨"body", none, [], [], 0⟩
          [.node ⟨"div", none, [], [], 0⟩ []]])
        (fun _ => []) (fun _ _ => false) id [some [0, 0], some [0]] =
      Except.error ("All elements must share the same parent for multi-element selector generation (element "
        ++ toString 1 ++ " differs)") ∧
    Dist.SelectorGenerator.getSelector
        (.node ⟨"html", none, [], [], 0⟩ [.node ⟨"body", none, [], [], 0⟩
          [.node ⟨"div", none, [], [], 0⟩ []]])
        (fun _ => []) (fun _ _ => false) id [] = Except.ok "*" :=
  ⟨dist_getSelector_validation_behavior.1 _ _ _ _ [none] (List.mem_singleton.2 rfl),
    dist_getSelector_validation_behavior.2.1 _ _ _ _ [some [0, 0], some [0]] 1
      (by decide) (by decide),
    dist_getSelector_validation_behavior.2.2 _ _ _ _⟩

/-- C4 counterexample: the bundled entry point called with zero nodes
does not throw; on a concrete document with an empty query collaborator
it returns the universal selector. -/
theorem dist_getSelector_zero_nodes_no_throw :
    Dist.SelectorGenerator.getSelector (.node ⟨"html", none, [], [], 0⟩ [])
      (fun _ => []) (fun _ _ => false) id [] = Except.ok "*" := rfl
